import Mathlib

/-!
Verification of the profile/session state manager in
src/text2sql-frontend/src/components/Providers/UserInfoProvider.tsx.

The TypeScript source is shallowly embedded: asynchronous functions become
pure functions whose suspension results (the outcomes of the two network
fetches) are explicit parameters; a value captured by a closure is an
explicit `captured` parameter; the React state setter `setUserInfo` is
modelled by recording the list of whole-value store writes a call performs;
`enqueueSnackbar` is modelled by recording the list of emitted
notifications; a thrown/rejected error is an `Except.error`.
-/

set_option maxRecDepth 10000

namespace Dataline

/-! ### Base64 decoding (model of Buffer.from(s, "base64"))

The frontend imports the buffer npm polyfill, whose base64 decoding first
truncates the input at the first padding character (base64clean does
split("=")[0]), then strips every character outside the accepted alphabet,
which includes the URL-safe characters (minus decodes as 62, underscore as
63), and finally packs the surviving 6-bit values into bytes, dropping a
trailing group too short to fill a byte. `b64CharValue` is the lookup
table, `base64Clean` the truncation, `decodeSextets` the packing. -/

def b64CharValue (c : Char) : Option Nat :=
  let n := c.toNat
  if 65 ≤ n ∧ n ≤ 90 then some (n - 65)
  else if 97 ≤ n ∧ n ≤ 122 then some (n - 71)
  else if 48 ≤ n ∧ n ≤ 57 then some (n + 4)
  else if n = 43 then some 62
  else if n = 47 then some 63
  else if n = 45 then some 62
  else if n = 95 then some 63
  else none

def base64Clean (l : List Char) : List Char :=
  l.takeWhile (fun c => c != '=')

def decodeSextets : List Nat → List Nat
  | a :: b :: c :: d :: rest =>
      (a * 4 + b / 16) :: ((b % 16) * 16 + c / 4) :: ((c % 4) * 64 + d) :: decodeSextets rest
  | [a, b, c] => [a * 4 + b / 16, (b % 16) * 16 + c / 4]
  | [a, b] => [a * 4 + b / 16]
  | [_] => []
  | [] => []

def decodeChars (l : List Char) : List Nat :=
  decodeSextets ((base64Clean l).filterMap b64CharValue)

def base64ToBytes (s : String) : List Nat :=
  decodeChars s.data

/-! ### Base64 encoding (used only to state validity of a payload)

`b64IndexChar` maps a 6-bit value to its alphabet character; `sextetsOf`
splits a byte list into 6-bit groups; `encodeBase64` is the standard padded
encoder, so "P is a valid base64 encoding of bytes B" is P = encodeBase64 B. -/

def b64IndexChar (n : Nat) : Char :=
  if n < 26 then Char.ofNat (65 + n)
  else if n < 52 then Char.ofNat (97 + (n - 26))
  else if n < 62 then Char.ofNat (48 + (n - 52))
  else if n = 62 then '+'
  else '/'

def sextetsOf : List Nat → List Nat
  | b1 :: b2 :: b3 :: rest =>
      (b1 / 4) :: ((b1 % 4) * 16 + b2 / 16) :: ((b2 % 16) * 4 + b3 / 64) :: (b3 % 64) ::
        sextetsOf rest
  | [b1, b2] => [b1 / 4, (b1 % 4) * 16 + b2 / 16, (b2 % 16) * 4]
  | [b1] => [b1 / 4, (b1 % 4) * 16]
  | [] => []

def b64PadCount (len : Nat) : Nat := (3 - len % 3) % 3

def encodeBase64 (B : List Nat) : String :=
  String.mk ((sextetsOf B).map b64IndexChar ++ List.replicate (b64PadCount B.length) '=')

lemma b64CharValue_lt {c : Char} {n : Nat} (h : b64CharValue c = some n) : n < 64 := by
  unfold b64CharValue at h
  simp only at h
  split at h <;> try split at h
  all_goals try split at h
  all_goals try split at h
  all_goals try split at h
  all_goals try split at h
  all_goals try split at h
  all_goals simp_all
  all_goals omega

lemma b64CharValue_indexChar : ∀ n, n < 64 → b64CharValue (b64IndexChar n) = some n := by
  decide

lemma b64CharValue_pad : b64CharValue '=' = none := by decide

lemma decodeSextets_sextetsOf :
    ∀ B : List Nat, (∀ b ∈ B, b < 256) → decodeSextets (sextetsOf B) = B := by
  intro B
  induction B using sextetsOf.induct with
  | case1 b1 b2 b3 rest ih =>
    intro h
    simp only [List.mem_cons] at h
    have h2 : b2 < 256 := h b2 (by tauto)
    have h3 : b3 < 256 := h b3 (by tauto)
    have ihr : decodeSextets (sextetsOf rest) = rest := by
      apply ih; intro b hb; exact h b (by tauto)
    simp only [sextetsOf, decodeSextets, ihr, List.cons.injEq, and_true]
    refine ⟨by omega, by omega, by omega⟩
  | case2 b1 b2 =>
    intro h
    simp only [List.mem_cons] at h
    have h2 : b2 < 256 := h b2 (by tauto)
    simp only [sextetsOf, decodeSextets, List.cons.injEq, and_true]
    exact ⟨by omega, by omega⟩
  | case3 b1 =>
    intro _
    simp only [sextetsOf, decodeSextets, List.cons.injEq, and_true]
    omega
  | case4 => intro _; rfl

lemma sextetsOf_lt :
    ∀ B : List Nat, (∀ b ∈ B, b < 256) → ∀ x ∈ sextetsOf B, x < 64 := by
  intro B
  induction B using sextetsOf.induct with
  | case1 b1 b2 b3 rest ih =>
    intro h x hx
    simp only [List.mem_cons] at h
    simp only [sextetsOf, List.mem_cons] at hx
    have h1 : b1 < 256 := h b1 (by tauto)
    have h2 : b2 < 256 := h b2 (by tauto)
    have h3 : b3 < 256 := h b3 (by tauto)
    rcases hx with rfl | rfl | rfl | rfl | hx
    · omega
    · omega
    · omega
    · omega
    · exact ih (fun b hb => h b (by tauto)) x hx
  | case2 b1 b2 =>
    intro h x hx
    simp only [List.mem_cons] at h
    simp only [sextetsOf, List.mem_cons, List.not_mem_nil, or_false] at hx
    have h1 : b1 < 256 := h b1 (by tauto)
    have h2 : b2 < 256 := h b2 (by tauto)
    rcases hx with rfl | rfl | rfl
    · omega
    · omega
    · omega
  | case3 b1 =>
    intro h x hx
    have h1 : b1 < 256 := h b1 (by simp)
    simp only [sextetsOf, List.mem_cons, List.not_mem_nil, or_false] at hx
    rcases hx with rfl | rfl
    · omega
    · omega
  | case4 => intro _ x hx; simp [sextetsOf] at hx

lemma filterMap_map_indexChar :
    ∀ l : List Nat, (∀ x ∈ l, x < 64) →
      (l.map b64IndexChar).filterMap b64CharValue = l := by
  intro l
  induction l with
  | nil => intro _; rfl
  | cons a t ih =>
    intro h
    have ha : a < 64 := h a (by simp)
    simp only [List.map_cons, List.filterMap_cons, b64CharValue_indexChar a ha]
    rw [ih (fun x hx => h x (List.mem_cons_of_mem a hx))]

lemma takeWhile_append_all {α : Type} (p : α → Bool) :
    ∀ (xs ys : List α), (∀ x ∈ xs, p x = true) →
      (xs ++ ys).takeWhile p = xs ++ ys.takeWhile p := by
  intro xs
  induction xs with
  | nil => intro ys _; rfl
  | cons a t ih =>
    intro ys h
    have ha : p a = true := h a (by simp)
    simp only [List.cons_append, List.takeWhile_cons, ha, if_true]
    rw [ih ys (fun x hx => h x (List.mem_cons_of_mem a hx))]

lemma takeWhile_pad_replicate :
    ∀ k : Nat, (List.replicate k '=').takeWhile (fun c => c != '=') = [] := by
  intro k
  cases k with
  | zero => rfl
  | succ m => simp [List.replicate, List.takeWhile_cons]

lemma b64IndexChar_ne_pad : ∀ n, n < 64 → (b64IndexChar n != '=') = true := by decide

lemma base64ToBytes_encode (B : List Nat) (h : ∀ b ∈ B, b < 256) :
    base64ToBytes (encodeBase64 B) = B := by
  unfold base64ToBytes encodeBase64 decodeChars base64Clean
  simp only [String.data]
  have hall : ∀ x ∈ (sextetsOf B).map b64IndexChar, (x != '=') = true := by
    intro x hx
    rcases List.mem_map.mp hx with ⟨n, hn, rfl⟩
    exact b64IndexChar_ne_pad n (sextetsOf_lt B h n hn)
  rw [takeWhile_append_all _ _ _ hall, takeWhile_pad_replicate, List.append_nil,
    filterMap_map_indexChar _ (sextetsOf_lt B h), decodeSextets_sextetsOf B h]

lemma decodeSextets_lt :
    ∀ l : List Nat, (∀ x ∈ l, x < 64) → ∀ b ∈ decodeSextets l, b < 256 := by
  intro l
  induction l using decodeSextets.induct with
  | case1 a b c d rest ih =>
    intro h x hx
    simp only [List.mem_cons] at h
    simp only [decodeSextets, List.mem_cons] at hx
    have ha : a < 64 := h a (by tauto)
    have hb : b < 64 := h b (by tauto)
    have hc : c < 64 := h c (by tauto)
    have hd : d < 64 := h d (by tauto)
    rcases hx with rfl | rfl | rfl | hx
    · omega
    · omega
    · omega
    · exact ih (fun y hy => h y (by tauto)) x hx
  | case2 a b c =>
    intro h x hx
    simp only [List.mem_cons] at h
    simp only [decodeSextets, List.mem_cons, List.not_mem_nil, or_false] at hx
    have ha : a < 64 := h a (by tauto)
    have hb : b < 64 := h b (by tauto)
    have hc : c < 64 := h c (by tauto)
    rcases hx with rfl | rfl
    · omega
    · omega
  | case3 a b =>
    intro h x hx
    simp only [List.mem_cons] at h
    simp only [decodeSextets, List.mem_cons, List.not_mem_nil, or_false] at hx
    have ha : a < 64 := h a (by tauto)
    have hb : b < 64 := h b (by tauto)
    subst hx
    omega
  | case4 a => intro _ x hx; simp [decodeSextets] at hx
  | case5 => intro _ x hx; simp [decodeSextets] at hx

lemma base64ToBytes_lt (s : String) : ∀ b ∈ base64ToBytes s, b < 256 := by
  unfold base64ToBytes decodeChars
  apply decodeSextets_lt
  intro x hx
  rcases List.mem_filterMap.mp hx with ⟨c, _, hc⟩
  exact b64CharValue_lt hc

lemma charOfNat_toNat : ∀ b : Nat, b < 256 → (Char.ofNat b).toNat = b := by decide

/-! ### decodeBase64Data (lines 8-18 of the source)

A Blob plus the object URL allocated for it is modelled as an `ObjectURL`
carrying the bytes the handle dereferences to. The source turns the decoded
buffer into a "binary" (latin1) string, reads the char codes back, and
builds a Uint8Array (which truncates each number modulo 256). -/

structure ObjectURL where
  bytes : List Nat
deriving DecidableEq, Repr

def decodeBase64Data (base64Data : String) : ObjectURL :=
  let byteCharacters : List Char := (base64ToBytes base64Data).map Char.ofNat
  let byteNumbers : List Nat := byteCharacters.map Char.toNat
  let byteArray : List Nat := byteNumbers.map (fun n => n % 256)
  ⟨byteArray⟩

lemma decodeBase64Data_bytes (s : String) :
    (decodeBase64Data s).bytes = base64ToBytes s := by
  unfold decodeBase64Data
  simp only [List.map_map]
  have h := base64ToBytes_lt s
  conv_rhs => rw [(List.map_id (base64ToBytes s)).symm]
  apply List.map_congr_left
  intro b hb
  have hb2 := h b hb
  simp only [Function.comp_apply, charOfNat_toNat b hb2, Nat.mod_eq_of_lt hb2, id]

/-! ### Data model (lines 20-36 of the source)

`UserInfo` mirrors the TypeScript type: every field is nullable. A JS
exception is a `JSError`: axios errors carry the optional response status
and the optional `data.detail` of the response (both absent when the error
has no response); any other thrown value is `JSError.other`. -/

structure UserInfo where
  name : Option String
  openaiApiKey : Option String
  avatarUrl : Option ObjectURL
deriving DecidableEq, Repr

structure Notification where
  variant : String
  message : Option String
deriving DecidableEq, Repr

inductive JSError where
  | axios (status : Option Nat) (detail : Option String)
  | other
deriving DecidableEq, Repr

structure ProfileData where
  name : Option String
  openai_api_key : Option String
deriving DecidableEq, Repr

structure AvatarData where
  blob : String
deriving DecidableEq, Repr

/-! ### The provider functions (lines 55-96 of the source)

Each embedded function returns, alongside its `Except` result (the settled
promise: `.error` is a rejection escaping the function), the list of whole
`UserInfo` values passed to `setUserInfo` and the list of notifications
passed to `enqueueSnackbar`, in order. The `captured` parameter is the
`userInfo` value the closure holds: the render-time value, frozen for the
whole asynchronous run. `applyWrites` replays a list of whole-value store
writes on top of the store value current when the writes land. -/

def applyWrites (store : UserInfo) (writes : List UserInfo) : UserInfo :=
  writes.foldl (fun _ w => w) store

def setAvatarBlob (captured : UserInfo) (blob : String) :
    Except JSError Unit × List UserInfo :=
  let url := decodeBase64Data blob
  (.ok (), [{ captured with avatarUrl := some url }])

def getAvatarUrl (avatarResp : Except JSError AvatarData) :
    Except JSError (Option ObjectURL) × List Notification :=
  match avatarResp with
  | .ok response => (.ok (some (decodeBase64Data response.blob)), [])
  | .error error =>
    match error with
    | .axios status detail =>
      if status ≠ some 404 then
        (.ok none, [{ variant := "error", message := detail }])
      else
        (.ok none, [])
    | .other => (.ok none, [])

def getUserInfo (captured : UserInfo) (profileResp : Except JSError ProfileData)
    (avatarResp : Except JSError AvatarData) :
    Except JSError Unit × List UserInfo × List Notification :=
  match profileResp with
  | .error _ =>
    (.ok (), [], [{ variant := "error", message := some "Error getting user info" }])
  | .ok response =>
    match getAvatarUrl avatarResp with
    | (.error _, notifs) =>
      (.ok (), [],
        notifs ++ [{ variant := "error", message := some "Error getting user info" }])
    | (.ok avatarUrl, notifs) =>
      (.ok (),
        [{ name := response.name,
           openaiApiKey := response.openai_api_key,
           avatarUrl := match avatarUrl with
             | some u => some u
             | none => captured.avatarUrl }],
        notifs)

/-! ### Context and accessor (lines 26-45 of the source)

`useContext` returns the value supplied by the innermost provider, or the
default the context was created with when there is no provider; it never
returns undefined here because the default itself is a proper triple. The
triple functions are modelled by the writes they produce. -/

structure UserInfoContextValue where
  userInfo : Option UserInfo
  setUserInfo : UserInfo → List UserInfo
  setAvatarBlobFn : String → Except JSError Unit × List UserInfo

def userInfoContextDefault : UserInfoContextValue :=
  { userInfo := none
    setUserInfo := fun _ => []
    setAvatarBlobFn := fun _ => (.ok (), []) }

def useContextUserInfo (provided : Option UserInfoContextValue) :
    Option UserInfoContextValue :=
  some (provided.getD userInfoContextDefault)

def useUserInfo (provided : Option UserInfoContextValue) :
    Except JSError UserInfoContextValue :=
  match useContextUserInfo provided with
  | none => .error .other
  | some context => .ok context

/-! ### The health-gated effect (lines 98-102 of the source)

The effect has dependency list [isHealthy], so React runs its body after
the first render and after every render whose isHealthy differs from the
previous render. The body calls the sync exactly when isHealthy is true.
`effectSyncCountAux prev bs` counts the sync invocations over the renders
`bs`, `prev` being the dependency recorded by the previous render (none at
mount). `falseToTrueEdges` counts, following the specification, the
false-to-true edges of the health signal, which is false before the
provider exists. -/

def effectSyncCountAux : Option Bool → List Bool → Nat
  | _, [] => 0
  | none, b :: rest => (if b then 1 else 0) + effectSyncCountAux (some b) rest
  | some prev, b :: rest =>
      (if b ≠ prev then (if b then 1 else 0) else 0) + effectSyncCountAux (some b) rest

def effectSyncCount (bs : List Bool) : Nat :=
  effectSyncCountAux none bs

def falseToTrueEdgesAux : Bool → List Bool → Nat
  | _, [] => 0
  | prev, b :: rest => (if b ∧ ¬prev then 1 else 0) + falseToTrueEdgesAux b rest

def falseToTrueEdges (bs : List Bool) : Nat :=
  falseToTrueEdgesAux false bs

/-! ### Helper lemmas -/

lemma getAvatarUrl_resolves (avatarResp : Except JSError AvatarData) :
    ∃ u notifs, getAvatarUrl avatarResp = (.ok u, notifs) := by
  cases avatarResp with
  | ok d => exact ⟨_, _, rfl⟩
  | error e =>
    cases e with
    | axios status detail =>
      by_cases h : status = some 404 <;> simp [getAvatarUrl, h]
    | other => exact ⟨_, _, rfl⟩

lemma cleanFilter_drop :
    ∀ (l1 l2 : List Char) (c : Char), (c != '=') = true → b64CharValue c = none →
      (base64Clean (l1 ++ c :: l2)).filterMap b64CharValue
        = (base64Clean (l1 ++ l2)).filterMap b64CharValue := by
  intro l1
  induction l1 with
  | nil =>
    intro l2 c hne hc
    simp only [List.nil_append, base64Clean, List.takeWhile_cons, hne, if_true,
      List.filterMap_cons, hc]
  | cons a t ih =>
    intro l2 c hne hc
    simp only [List.cons_append, base64Clean, List.takeWhile_cons]
    by_cases ha : (a != '=') = true
    · simp only [ha, if_true, List.filterMap_cons]
      have hrec := ih l2 c hne hc
      unfold base64Clean at hrec
      rw [hrec]
    · simp only [Bool.not_eq_true] at ha
      simp only [ha]
      rfl

lemma effectSyncCountAux_eq_edges :
    ∀ (bs : List Bool) (p : Bool),
      effectSyncCountAux (some p) bs = falseToTrueEdgesAux p bs := by
  intro bs
  induction bs with
  | nil => intro p; rfl
  | cons b rest ih =>
    intro p
    simp only [effectSyncCountAux, falseToTrueEdgesAux, ih b]
    congr 1
    cases b <;> cases p <;> simp

lemma effectSyncCount_eq_edges :
    ∀ bs : List Bool, effectSyncCount bs = falseToTrueEdges bs := by
  intro bs
  cases bs with
  | nil => rfl
  | cons b rest =>
    simp only [effectSyncCount, falseToTrueEdges, effectSyncCountAux,
      falseToTrueEdgesAux, effectSyncCountAux_eq_edges rest b]
    congr 1
    cases b <;> simp

lemma edges_append_recovery :
    ∀ (bs : List Bool) (p : Bool),
      falseToTrueEdgesAux p (bs ++ [false, true]) = falseToTrueEdgesAux p bs + 1 := by
  intro bs
  induction bs with
  | nil => intro p; simp [falseToTrueEdgesAux]
  | cons b rest ih =>
    intro p
    simp only [List.cons_append, falseToTrueEdgesAux, List.append_eq, ih b]
    omega

lemma edges_replicate_same :
    ∀ (n : Nat) (b : Bool), falseToTrueEdgesAux b (List.replicate n b) = 0 := by
  intro n
  induction n with
  | zero => intro b; rfl
  | succ m ih =>
    intro b
    simp only [List.replicate, falseToTrueEdgesAux, ih b]
    cases b <;> simp

/-! ### Claims -/

/-- C1: the specification requires the merge in the sync procedure to reuse
the avatar handle held in the store at merge time whenever the avatar fetch
produced no handle. The code instead reuses the closure-captured value from
before the fetches: with a captured store whose avatar is absent, a newer
avatar landed in the store during the fetches, and a 404 avatar fetch, the
merged value written by getUserInfo carries no avatar, discarding the newer
handle the store held at merge time. -/
theorem c1_merge_uses_captured_avatar :
    applyWrites { name := none, openaiApiKey := none, avatarUrl := some ⟨[1, 2, 3]⟩ }
      (getUserInfo { name := none, openaiApiKey := none, avatarUrl := none }
        (.ok { name := some "Ann", openai_api_key := some "sk-123" })
        (.error (.axios (some 404) none))).2.1
      = { name := some "Ann", openaiApiKey := some "sk-123", avatarUrl := none }
    ∧ (applyWrites { name := none, openaiApiKey := none, avatarUrl := some ⟨[1, 2, 3]⟩ }
        (getUserInfo { name := none, openaiApiKey := none, avatarUrl := none }
          (.ok { name := some "Ann", openai_api_key := some "sk-123" })
          (.error (.axios (some 404) none))).2.1).avatarUrl
      ≠ ({ name := none, openaiApiKey := none,
           avatarUrl := some ⟨[1, 2, 3]⟩ } : UserInfo).avatarUrl := by
  constructor
  · rfl
  · decide

/-- C2: whenever the profile fetch fails, getUserInfo performs no store
write at all (so the store keeps its pre-sync value whatever it was) and
emits exactly the one notification "Error getting user info". -/
theorem c2_profile_fetch_failure_atomic (store captured : UserInfo) (e : JSError)
    (avatarResp : Except JSError AvatarData) :
    getUserInfo captured (.error e) avatarResp
      = (.ok (), [],
         [{ variant := "error", message := some "Error getting user info" }])
    ∧ applyWrites store (getUserInfo captured (.error e) avatarResp).2.1 = store :=
  ⟨rfl, rfl⟩

/-- C3 counterexample: the claim demands exactly one notification for every
avatar-fetch failure other than 404, including non-HTTP errors; but on a
non-axios avatar error the sync emits zero notifications. -/
theorem c3_non_http_avatar_error_is_silent :
    (getUserInfo { name := none, openaiApiKey := none, avatarUrl := none }
      (.ok { name := some "Ann", openai_api_key := some "sk-123" })
      (.error .other)).2.2 = [] := rfl

/-- C3 amended: on an axios avatar failure with status other than 404 the
sync emits exactly one notification carrying the server detail when
available and proceeds, writing the new name and apiKey with the captured
prior avatar; on a non-HTTP avatar failure it proceeds the same way but
emits no notification. -/
theorem c3_avatar_failure_notifies_and_proceeds (captured : UserInfo)
    (p : ProfileData) (status : Option Nat) (detail : Option String)
    (h : status ≠ some 404) :
    getUserInfo captured (.ok p) (.error (.axios status detail))
      = (.ok (),
         [{ name := p.name, openaiApiKey := p.openai_api_key,
            avatarUrl := captured.avatarUrl }],
         [{ variant := "error", message := detail }])
    ∧ getUserInfo captured (.ok p) (.error .other)
      = (.ok (),
         [{ name := p.name, openaiApiKey := p.openai_api_key,
            avatarUrl := captured.avatarUrl }],
         []) := by
  constructor
  · simp only [getUserInfo, getAvatarUrl, if_pos h]
  · rfl

/-- C3 witness: a 500 avatar failure with detail "server error". -/
theorem c3_avatar_failure_notifies_and_proceeds_witness :
    getUserInfo { name := none, openaiApiKey := none, avatarUrl := none }
      (.ok { name := some "Ann", openai_api_key := some "sk-123" })
      (.error (.axios (some 500) (some "server error")))
      = (.ok (),
         [{ name := some "Ann", openaiApiKey := some "sk-123", avatarUrl := none }],
         [{ variant := "error", message := some "server error" }]) :=
  (c3_avatar_failure_notifies_and_proceeds
    { name := none, openaiApiKey := none, avatarUrl := none }
    { name := some "Ann", openai_api_key := some "sk-123" }
    (some 500) (some "server error") (by decide)).1

/-- C4: when the profile fetch succeeds and the avatar fetch fails with
status 404, the sync writes exactly one store value carrying the new name
and apiKey and the avatar handle from before the sync, and emits no
notification; applying the single write ends the store at that value. -/
theorem c4_avatar_not_found_preserves_prior_avatar (preStore : UserInfo)
    (p : ProfileData) (detail : Option String) :
    getUserInfo preStore (.ok p) (.error (.axios (some 404) detail))
      = (.ok (),
         [{ name := p.name, openaiApiKey := p.openai_api_key,
            avatarUrl := preStore.avatarUrl }],
         [])
    ∧ applyWrites preStore
        (getUserInfo preStore (.ok p) (.error (.axios (some 404) detail))).2.1
      = { name := p.name, openaiApiKey := p.openai_api_key,
          avatarUrl := preStore.avatarUrl } := by
  constructor
  · simp only [getUserInfo, getAvatarUrl]
    norm_num
  · simp only [getUserInfo, getAvatarUrl, applyWrites]
    norm_num

/-- C5 counterexample: the claim says the name and apiKey after
setAvatarFromBase64 equal the store values current at call time; but the
code spreads the closure-captured value, so with a captured name "A" and a
store that moved to name "B" before the write lands, the final store name
is "A", not the call-time "B". -/
theorem c5_stale_capture_clobbers_name :
    applyWrites { name := some "B", openaiApiKey := some "k", avatarUrl := none }
      (setAvatarBlob { name := some "A", openaiApiKey := none, avatarUrl := none } "").2
      = { name := some "A", openaiApiKey := none, avatarUrl := some ⟨[]⟩ }
    ∧ ({ name := some "A", openaiApiKey := none,
         avatarUrl := some ⟨[]⟩ } : UserInfo).name
      ≠ ({ name := some "B", openaiApiKey := some "k",
           avatarUrl := none } : UserInfo).name := by
  constructor
  · rfl
  · simp

/-- C5 amended: setAvatarFromBase64 performs exactly one store write, whose
name and apiKey are the ones captured when the closure was created (they
coincide with the call-time store values whenever no update intervened
since capture) and whose avatar is the handle decoded from the input. -/
theorem c5_set_avatar_writes_captured_frame (captured : UserInfo) (blob : String) :
    setAvatarBlob captured blob
      = (.ok (),
         [{ name := captured.name, openaiApiKey := captured.openaiApiKey,
            avatarUrl := some (decodeBase64Data blob) }]) := by
  cases captured
  rfl

/-- C6: the effect with dependency list [isHealthy] invokes the sync exactly
once per false-to-true edge of the health signal (the signal being false
before the provider exists): the invocation count equals the edge count on
every render sequence, an all-false history triggers no sync, appending a
loss-then-recovery adds exactly one sync, and a signal that stays at the
same value adds none. -/
theorem c6_sync_once_per_health_edge :
    (∀ bs : List Bool, effectSyncCount bs = falseToTrueEdges bs)
    ∧ (∀ n : Nat, effectSyncCount (List.replicate n false) = 0)
    ∧ (∀ bs : List Bool,
        falseToTrueEdges (bs ++ [false, true]) = falseToTrueEdges bs + 1)
    ∧ (∀ (n : Nat) (b : Bool), falseToTrueEdgesAux b (List.replicate n b) = 0) := by
  refine ⟨effectSyncCount_eq_edges, ?_, ?_, edges_replicate_same⟩
  · intro n
    rw [effectSyncCount_eq_edges]
    exact edges_replicate_same n false
  · intro bs
    exact edges_append_recovery bs false

/-- C7: decoding a valid base64 encoding of any byte sequence yields a
handle referencing exactly those bytes, and the referenced bytes are a
deterministic function of the input string. -/
theorem c7_base64_round_trip :
    (∀ B : List Nat, (∀ b ∈ B, b < 256) →
      (decodeBase64Data (encodeBase64 B)).bytes = B)
    ∧ (∀ s : String, (decodeBase64Data s).bytes = base64ToBytes s) := by
  constructor
  · intro B h
    rw [decodeBase64Data_bytes, base64ToBytes_encode B h]
  · exact decodeBase64Data_bytes

/-- C7 witness: the bytes of "hello" round-trip through encode and decode. -/
theorem c7_base64_round_trip_witness :
    (decodeBase64Data (encodeBase64 [104, 101, 108, 108, 111])).bytes
      = [104, 101, 108, 108, 111] :=
  c7_base64_round_trip.1 [104, 101, 108, 108, 111] (by decide)

/-- C8: no exception escapes the public entry points: for every fetch
outcome getUserInfo and getAvatarUrl resolve rather than reject, and for
every input setAvatarBlob and useUserInfo complete normally. -/
theorem c8_no_exception_escapes (captured : UserInfo)
    (profileResp : Except JSError ProfileData) (avatarResp : Except JSError AvatarData)
    (blob : String) (provided : Option UserInfoContextValue) :
    (getUserInfo captured profileResp avatarResp).1 = .ok ()
    ∧ (∃ u, (getAvatarUrl avatarResp).1 = .ok u)
    ∧ (setAvatarBlob captured blob).1 = .ok ()
    ∧ (∃ ctx, useUserInfo provided = .ok ctx) := by
  refine ⟨?_, ?_, rfl, ?_⟩
  · cases profileResp with
    | error e => rfl
    | ok p =>
      rcases getAvatarUrl_resolves avatarResp with ⟨u, notifs, hu⟩
      simp [getUserInfo, hu]
  · rcases getAvatarUrl_resolves avatarResp with ⟨u, notifs, hu⟩
    exact ⟨u, by rw [hu]⟩
  · cases provided <;> exact ⟨_, rfl⟩

/-- C9: the context is created with a non-undefined default triple, so
useUserInfo never reaches its throwing branch: on every input it returns
the provided triple, or the default triple (null store value with no-op
setters) outside a provider. -/
theorem c9_useUserInfo_never_throws (provided : Option UserInfoContextValue) :
    useUserInfo provided = .ok (provided.getD userInfoContextDefault)
    ∧ userInfoContextDefault.userInfo = none
    ∧ (∀ u, userInfoContextDefault.setUserInfo u = [])
    ∧ (∀ s, userInfoContextDefault.setAvatarBlobFn s = (.ok (), [])) := by
  refine ⟨?_, rfl, fun u => rfl, fun s => rfl⟩
  cases provided <;> rfl

/-- C10: the decoder is total and lenient over arbitrary strings: an
invalid character, one that is neither the padding character (which ends
the input) nor in the accepted alphabet (which includes the URL-safe
characters), is dropped without affecting the decoded bytes, and
setAvatarBlob completes normally on every input, performing its single
store write with the decoded handle. -/
theorem c10_decoder_total_and_lenient (l1 l2 : List Char) (c : Char)
    (hne : c ≠ '=') (hc : b64CharValue c = none) (captured : UserInfo) (s : String) :
    decodeChars (l1 ++ c :: l2) = decodeChars (l1 ++ l2)
    ∧ (setAvatarBlob captured s).1 = .ok ()
    ∧ (setAvatarBlob captured s).2
      = [{ name := captured.name, openaiApiKey := captured.openaiApiKey,
           avatarUrl := some (decodeBase64Data s) }] := by
  cases captured
  refine ⟨?_, rfl, rfl⟩
  unfold decodeChars
  exact congrArg decodeSextets (cleanFilter_drop l1 l2 c (by simpa using hne) hc)

/-- C10 witness: an exclamation mark is not a base64 character and is
dropped, and setAvatarBlob completes on the malformed input "!!". -/
theorem c10_decoder_total_and_lenient_witness :
    decodeChars (['a', 'b'] ++ '!' :: ['c', 'd']) = decodeChars (['a', 'b'] ++ ['c', 'd'])
    ∧ (setAvatarBlob { name := none, openaiApiKey := none, avatarUrl := none } "!!").1
      = .ok ()
    ∧ (setAvatarBlob { name := none, openaiApiKey := none, avatarUrl := none } "!!").2
      = [{ name := none, openaiApiKey := none,
           avatarUrl := some (decodeBase64Data "!!") }] :=
  c10_decoder_total_and_lenient ['a', 'b'] ['c', 'd'] '!' (by decide) (by decide)
    { name := none, openaiApiKey := none, avatarUrl := none } "!!"

end Dataline
